import Mathlib

/-!
Shallow embedding of the NouncilBot auto-recording bot
(src/nouncil-recorder/bot/bot.py, class AutoRecordBot).

The bot's mutable attributes (`recording`, `voice_client`,
`current_recording_channel`, `frames`, `audio`, `stream`) become a `BotState`
record.  Each coroutine of the class becomes a pure function from `BotState`
to `BotState` paired with a trace of externally visible events (`Ev`):
file writes, channel/ctx messages, resource acquisitions and releases.
Fallible external calls (`channel.connect()`, `pyaudio.PyAudio()`,
`stream.open`, the `wave` flush) are driven by boolean success flags in an
`Env` record; a `False` flag models the corresponding Python call raising,
and the embedding then follows the source's `except`/`finally` paths.
A failed flush writes no completed file (a partially written `.wav` on disk
is not modelled as a `fileWrite` event).  Audio chunks are byte lists
(`List Nat`); `b''.join(self.frames)` becomes `List.join`.
-/

namespace NouncilBot

/-- A voice-channel member; `bot` mirrors discord's `Member.bot` flag. -/
structure Member where
  bot : Bool
deriving DecidableEq, Repr

/-- A voice channel: an id and its current occupants (`channel.members`). -/
structure Channel where
  id : Nat
  members : List Member
deriving DecidableEq, Repr

/-- The mutable session state of `AutoRecordBot.__init__` (bot.py lines 51-56).
Opaque handles (`voice_client`, `audio`, `stream`) are modelled as `Option`:
`none` is Python `None`, `some` a live handle; the voice client remembers the
channel id it connected to. -/
structure BotState where
  recording : Bool
  voice_client : Option Nat
  current_recording_channel : Option Nat
  frames : List (List Nat)
  audio : Option Unit
  stream : Option Unit
deriving DecidableEq, Repr

/-- The state right after `__init__`: nothing recording, no handles, no frames. -/
def initState : BotState :=
  { recording := false, voice_client := none, current_recording_channel := none,
    frames := [], audio := none, stream := none }

/-- Success flags for the fallible external calls of one operation. -/
structure Env where
  connectOk : Bool
  pyaudioOk : Bool
  openOk : Bool
  flushOk : Bool
deriving DecidableEq, Repr

/-- Externally visible events emitted by the bot's operations. -/
inductive Ev where
  | connect (cid : Nat)
  | openStream
  | fileWrite (payload : List Nat)
  | sendChan (cid : Nat) (msg : String)
  | sendCtx (msg : String)
  | stopStream
  | closeStream
  | terminateAudio
  | disconnectVC
deriving DecidableEq, Repr

/-- Which return path `stop_recording` took: the early `return` when
`self.recording` is false (the spec's `NotActive`), or a completed stop. -/
inductive StopRes where
  | notActive
  | stopped
deriving DecidableEq, Repr

/-- `len([m for m in channel.members if not m.bot])` (bot.py line 84). -/
def member_count (channel : Channel) : Nat :=
  (channel.members.filter (fun m => !m.bot)).length

/-- `cleanup_recording` (bot.py lines 175-190): each release is guarded by a
truthiness check on the handle, then every field is reset to its default. -/
def cleanup_recording (st : BotState) : BotState × List Ev :=
  ({ recording := false, voice_client := none, current_recording_channel := none,
     frames := [], audio := none, stream := none },
   (if st.stream.isSome then [Ev.stopStream, Ev.closeStream] else [])
     ++ (if st.audio.isSome then [Ev.terminateAudio] else [])
     ++ (if st.voice_client.isSome then [Ev.disconnectVC] else []))

/-- Announcement texts sent by `stop_recording` (bot.py lines 160-167). -/
def autoStopMsg : String := "Recording stopped - less than 3 members in channel"

/-- Text for the error-reason stop notification. -/
def errorStopMsg : String := "Recording stopped due to an error"

/-- Text for the manual-reason stop notification. -/
def manualStopMsg : String := "Recording stopped manually"

/-- The `Recording saved as: ...` message (filename timestamp not modelled). -/
def savedMsg : String := "Recording saved as: nouncil_recording_timestamp"

/-- The reason-specific message choice of bot.py lines 160-165. -/
def reasonMsg (auto_stopped error : Bool) : String :=
  if auto_stopped then autoStopMsg else if error then errorStopMsg else manualStopMsg

/-- `stop_recording` (bot.py lines 136-173).  Early `return` when not
recording; otherwise `recording` is set false, the `try` block writes the
file and sends the notifications only when `frames` is non-empty (a failing
flush raises into the `except` branch, which sends an error message only when
the remembered channel is not `None`), and the `finally` branch always runs
`cleanup_recording` on the way out. -/
def stop_recording (env : Env) (auto_stopped error : Bool) (st : BotState) :
    BotState × List Ev × StopRes :=
  if st.recording = false then (st, [], StopRes.notActive)
  else
    ((cleanup_recording { st with recording := false }).1,
     (if st.frames = [] then []
      else if env.flushOk = true then
        match st.current_recording_channel with
        | some c =>
            [Ev.fileWrite st.frames.flatten,
             Ev.sendChan c (reasonMsg auto_stopped error),
             Ev.sendChan c savedMsg]
        | none => [Ev.fileWrite st.frames.flatten]
      else
        match st.current_recording_channel with
        | some c => [Ev.sendChan c "Error saving recording"]
        | none => [])
       ++ (cleanup_recording { st with recording := false }).2,
     StopRes.stopped)

/-- `start_recording` (bot.py lines 93-123): early `return` when already
recording; otherwise connect, open the audio stream, flip `recording`, clear
`frames` and announce.  Any exception in the `try` block falls into the
handler, which runs `cleanup_recording`. -/
def start_recording (env : Env) (channel : Channel) (st : BotState) :
    BotState × List Ev :=
  if st.recording then (st, [])
  else if env.connectOk = false then
    cleanup_recording st
  else
    let st1 : BotState :=
      { st with voice_client := some channel.id,
                current_recording_channel := some channel.id }
    if env.pyaudioOk = false then
      ((cleanup_recording st1).1, Ev.connect channel.id :: (cleanup_recording st1).2)
    else if env.openOk = false then
      ((cleanup_recording { st1 with audio := some () }).1,
       Ev.connect channel.id :: (cleanup_recording { st1 with audio := some () }).2)
    else
      ({ st1 with audio := some (), stream := some (),
                  recording := true, frames := [] },
       [Ev.connect channel.id, Ev.openStream,
        Ev.sendChan channel.id "Recording started - 3 or more members detected in channel"])

/-- One iteration of `record_loop` (bot.py lines 125-134): while recording,
read one chunk and append it; a read failure raises and the handler calls
`stop_recording(error=True)`. -/
def record_loop_iter (env : Env) (readOk : Bool) (frame : List Nat)
    (st : BotState) : BotState × List Ev :=
  if st.recording then
    if readOk then ({ st with frames := st.frames ++ [frame] }, [])
    else
      ((stop_recording env false true st).1, (stop_recording env false true st).2.1)
  else (st, [])

/-- `check_channel` (bot.py lines 82-91): count non-bot members, start when
the count reaches 3 and nothing is recording, auto-stop when it drops below 3
in the channel being recorded, otherwise do nothing. -/
def check_channel (env : Env) (channel : Channel) (st : BotState) :
    BotState × List Ev :=
  if 3 ≤ member_count channel ∧ st.recording = false then
    start_recording env channel st
  else if member_count channel < 3 ∧ st.recording = true ∧
      st.current_recording_channel = some channel.id then
    ((stop_recording env true false st).1, (stop_recording env true false st).2.1)
  else (st, [])

/-- The command context: whether the author is in a voice channel (and which),
and whether they hold the administrator permission. -/
structure Ctx where
  authorVoiceChannel : Option Nat
  isAdmin : Bool
deriving DecidableEq, Repr

/-- `ctx.author.voice and ctx.author.voice.channel == self.current_recording_channel`
(bot.py line 205). -/
def author_in_recording_channel (ctx : Ctx) (st : BotState) : Bool :=
  match ctx.authorVoiceChannel with
  | some c => st.current_recording_channel == some c
  | none => false

/-- The `!stop` command (bot.py lines 199-209). -/
def stop (env : Env) (ctx : Ctx) (st : BotState) : BotState × List Ev :=
  if st.recording = false then (st, [Ev.sendCtx "Not currently recording!"])
  else if author_in_recording_channel ctx st then
    ((stop_recording env false false st).1,
     (stop_recording env false false st).2.1
       ++ [Ev.sendCtx "Recording stopped by command"])
  else (st, [Ev.sendCtx "You must be in the recording channel to stop it"])

/-- The `!forcestop` command (bot.py lines 211-221). -/
def force_stop (env : Env) (ctx : Ctx) (st : BotState) : BotState × List Ev :=
  if st.recording = false then (st, [Ev.sendCtx "Not currently recording!"])
  else if ctx.isAdmin then
    ((stop_recording env false false st).1,
     (stop_recording env false false st).2.1
       ++ [Ev.sendCtx "Recording force stopped by admin"])
  else (st, [Ev.sendCtx "Only administrators can force stop recordings"])

/-- `cog_unload` (bot.py lines 223-226): on shutdown, if recording, schedule
`stop_recording()` with its default (manual) reason. -/
def cog_unload (env : Env) (st : BotState) : BotState × List Ev :=
  if st.recording then
    ((stop_recording env false false st).1, (stop_recording env false false st).2.1)
  else (st, [])

/-- The quorum decision read off the branch conditions of `check_channel`
(bot.py lines 86-91), as a pure intent. -/
inductive Intent where
  | start
  | stopAuto
deriving DecidableEq, Repr

/-- The intent `check_channel` acts on, as a pure function of the channel
snapshot and the session state (spec 4.2's decision rule). -/
def channelIntent (channel : Channel) (st : BotState) : Option Intent :=
  if 3 ≤ member_count channel ∧ st.recording = false then some Intent.start
  else if member_count channel < 3 ∧ st.recording = true ∧
      st.current_recording_channel = some channel.id then some Intent.stopAuto
  else none

/-- The completed-file payloads among a trace's events, in order. -/
def writes (evs : List Ev) : List (List Nat) :=
  evs.filterMap (fun e => match e with | Ev.fileWrite p => some p | _ => none)

/-- The (channel, text) messages among a trace's events, in order. -/
def chanMsgs (evs : List Ev) : List (Nat × String) :=
  evs.filterMap (fun e => match e with | Ev.sendChan c m => some (c, m) | _ => none)

/-- A channel with id 1 and `n` non-bot occupants, for concrete scenarios. -/
def chN (n : Nat) : Channel := { id := 1, members := List.replicate n { bot := false } }

/-- An environment in which every external call succeeds. -/
def envA : Env := { connectOk := true, pyaudioOk := true, openOk := true, flushOk := true }

/-- A concrete mid-session state: recording channel 1 with two buffered frames. -/
def stA : BotState :=
  { recording := true, voice_client := some 1, current_recording_channel := some 1,
    frames := [[7], [8]], audio := some (), stream := some () }

/-- The spec 8 scenario: occupant counts [1, 2, 3, 2, 4, 1] on channel 1,
with one chunk captured during each of the two recording periods.  Returns
the quorum intent observed at each of the six events, and the concatenated
event trace of the whole run. -/
def quorumScenario : List (Option Intent) × List Ev :=
  let s0 := initState
  let r1 := check_channel envA (chN 1) s0
  let r2 := check_channel envA (chN 2) r1.1
  let r3 := check_channel envA (chN 3) r2.1
  let r3b := record_loop_iter envA true [7] r3.1
  let r4 := check_channel envA (chN 2) r3b.1
  let r5 := check_channel envA (chN 4) r4.1
  let r5b := record_loop_iter envA true [8] r5.1
  let r6 := check_channel envA (chN 1) r5b.1
  ([channelIntent (chN 1) s0, channelIntent (chN 2) r1.1, channelIntent (chN 3) r2.1,
    channelIntent (chN 2) r3b.1, channelIntent (chN 4) r4.1, channelIntent (chN 1) r5b.1],
   r1.2 ++ r2.2 ++ r3.2 ++ r3b.2 ++ r4.2 ++ r5.2 ++ r5b.2 ++ r6.2)

/-! ## Supporting lemmas -/

theorem cleanup_state (st : BotState) : (cleanup_recording st).1 = initState := rfl

theorem stop_not_recording {env : Env} {a e : Bool} {st : BotState}
    (h : st.recording = false) :
    stop_recording env a e st = (st, [], StopRes.notActive) := by
  unfold stop_recording
  rw [if_pos h]

theorem initState_not_recording : initState.recording = false := rfl

/-- Unfolding of `stop_recording` on an active session: the try-block events
followed by the cleanup events, ending in the reset state. -/
theorem stop_recording_active (env : Env) (a e : Bool) (st : BotState)
    (h : st.recording = true) :
    stop_recording env a e st =
      (initState,
       (if st.frames = [] then []
        else if env.flushOk = true then
          match st.current_recording_channel with
          | some c =>
              [Ev.fileWrite st.frames.flatten,
               Ev.sendChan c (reasonMsg a e),
               Ev.sendChan c savedMsg]
          | none => [Ev.fileWrite st.frames.flatten]
        else
          match st.current_recording_channel with
          | some c => [Ev.sendChan c "Error saving recording"]
          | none => [])
         ++ (cleanup_recording st).2,
       StopRes.stopped) := by
  unfold stop_recording
  rw [if_neg (by simp [h])]
  rfl

theorem writes_append (l1 l2 : List Ev) :
    writes (l1 ++ l2) = writes l1 ++ writes l2 := by
  simp [writes]

theorem writes_cleanup (st : BotState) : writes (cleanup_recording st).2 = [] := by
  obtain ⟨r, v, c, f, au, sm⟩ := st
  cases v <;> cases au <;> cases sm <;> simp [cleanup_recording, writes]

theorem chanMsgs_append (l1 l2 : List Ev) :
    chanMsgs (l1 ++ l2) = chanMsgs l1 ++ chanMsgs l2 := by
  simp [chanMsgs]

theorem chanMsgs_cleanup (st : BotState) : chanMsgs (cleanup_recording st).2 = [] := by
  obtain ⟨r, v, c, f, au, sm⟩ := st
  cases v <;> cases au <;> cases sm <;> simp [cleanup_recording, chanMsgs]

/-- The file writes of a stop on an active session, for every flush outcome. -/
theorem stop_writes_char (env : Env) (a e : Bool) (st : BotState)
    (h : st.recording = true) :
    writes (stop_recording env a e st).2.1 =
      if st.frames = [] then []
      else if env.flushOk = true then [st.frames.flatten] else [] := by
  rw [stop_recording_active env a e st h]
  dsimp only
  rw [writes_append, writes_cleanup, List.append_nil]
  by_cases hf : st.frames = []
  · simp [hf, writes]
  · by_cases hk : env.flushOk = true
    · cases hc : st.current_recording_channel <;> simp [hf, hk, hc, writes]
    · cases hc : st.current_recording_channel <;> simp [hf, hk, hc, writes]

/-- The reason-specific notification is among the stop events when the
buffer is non-empty and the flush succeeds. -/
theorem reason_msg_mem {env : Env} {a e : Bool} {st : BotState} {c : Nat}
    (h : st.recording = true) (hc : st.current_recording_channel = some c)
    (hf : st.frames ≠ []) (hk : env.flushOk = true) :
    Ev.sendChan c (reasonMsg a e) ∈ (stop_recording env a e st).2.1 := by
  rw [stop_recording_active env a e st h]
  dsimp only
  simp [hc, hf, hk]

/-- `check_channel` acts exactly on the pure intent `channelIntent`. -/
theorem check_channel_eq_intent (env : Env) (channel : Channel) (st : BotState) :
    check_channel env channel st =
      match channelIntent channel st with
      | some Intent.start => start_recording env channel st
      | some Intent.stopAuto =>
          ((stop_recording env true false st).1, (stop_recording env true false st).2.1)
      | none => (st, []) := by
  by_cases h1 : 3 ≤ member_count channel ∧ st.recording = false
  · simp [check_channel, channelIntent, h1]
  · by_cases h2 : member_count channel < 3 ∧ st.recording = true ∧
        st.current_recording_channel = some channel.id
    · simp [check_channel, channelIntent, h1, h2]
    · simp [check_channel, channelIntent, h1, h2]

/-! ## Claims -/

/-- C1: while a session is active, every start request — a direct
`start_recording` for any channel, or a quorum-satisfying membership event —
is ignored: the session state is unchanged, no events are emitted, and no
second session is created. -/
theorem start_ignored_while_active (env : Env) (channel : Channel)
    (st : BotState) (h : st.recording = true) :
    start_recording env channel st = (st, []) ∧
    (3 ≤ member_count channel → check_channel env channel st = (st, [])) := by
  constructor
  · simp [start_recording, h]
  · intro hc
    unfold check_channel
    rw [if_neg (by simp [h]), if_neg (by rintro ⟨h1, h2, h3⟩; omega)]

theorem start_ignored_while_active_witness :
    stA.recording = true ∧
    (start_recording envA (chN 3) stA = (stA, []) ∧
     (3 ≤ member_count (chN 3) → check_channel envA (chN 3) stA = (stA, []))) :=
  ⟨rfl, start_ignored_while_active envA (chN 3) stA rfl⟩

/-- C2: every stop on an active session — for every reason tag and every
flush outcome — takes the completed-stop path, ends with the cleanup events,
and leaves every session field at its empty default. -/
theorem stop_cleanup_every_path (env : Env) (a e : Bool) (st : BotState)
    (h : st.recording = true) :
    (stop_recording env a e st).1 = initState ∧
    (stop_recording env a e st).2.2 = StopRes.stopped ∧
    ∃ l, (stop_recording env a e st).2.1 = l ++ (cleanup_recording st).2 := by
  rw [stop_recording_active env a e st h]
  exact ⟨rfl, rfl, ⟨_, rfl⟩⟩

theorem stop_cleanup_every_path_witness :
    stA.recording = true ∧
    ((stop_recording envA true false stA).1 = initState ∧
     (stop_recording envA true false stA).2.2 = StopRes.stopped ∧
     ∃ l, (stop_recording envA true false stA).2.1 = l ++ (cleanup_recording stA).2) :=
  ⟨rfl, stop_cleanup_every_path envA true false stA rfl⟩

/-- C4: a membership event with non-bot count `n` and threshold 3 starts the
channel when `n ≥ 3` and nothing is recording, auto-stops when `n < 3` in
the channel being recorded, and in every other case changes nothing. -/
theorem check_channel_cases (env : Env) (channel : Channel) (st : BotState) :
    (3 ≤ member_count channel → st.recording = false →
      check_channel env channel st = start_recording env channel st) ∧
    (member_count channel < 3 → st.recording = true →
      st.current_recording_channel = some channel.id →
      check_channel env channel st
        = ((stop_recording env true false st).1, (stop_recording env true false st).2.1)) ∧
    ((member_count channel < 3 ∧ st.recording = true ∧
        st.current_recording_channel ≠ some channel.id) ∨
      (3 ≤ member_count channel ∧ st.recording = true) ∨
      (member_count channel < 3 ∧ st.recording = false) →
      check_channel env channel st = (st, [])) := by
  refine ⟨?_, ?_, ?_⟩
  · intro h1 h2
    rw [check_channel, if_pos ⟨h1, h2⟩]
  · intro h1 h2 h3
    rw [check_channel, if_neg (by rintro ⟨ha, hb⟩; rw [h2] at hb; simp at hb),
      if_pos ⟨h1, h2, h3⟩]
  · rintro (⟨h1, h2, h3⟩ | ⟨h1, h2⟩ | ⟨h1, h2⟩)
    · rw [check_channel, if_neg (by rintro ⟨ha, hb⟩; rw [h2] at hb; simp at hb),
        if_neg (by rintro ⟨ha, hb, hc⟩; exact h3 hc)]
    · rw [check_channel, if_neg (by rintro ⟨ha, hb⟩; rw [h2] at hb; simp at hb),
        if_neg (by rintro ⟨ha, hb, hc⟩; omega)]
    · rw [check_channel, if_neg (by rintro ⟨ha, hb⟩; omega),
        if_neg (by rintro ⟨ha, hb, hc⟩; rw [h2] at hb; simp at hb)]

theorem check_channel_cases_witness :
    3 ≤ member_count (chN 3) ∧ initState.recording = false ∧
    check_channel envA (chN 3) initState = start_recording envA (chN 3) initState :=
  ⟨by decide, rfl, (check_channel_cases envA (chN 3) initState).1 (by decide) rfl⟩

/-- C5: on the occupant-count sequence [1, 2, 3, 2, 4, 1] for one channel
with threshold 3, starting from the fresh state, the quorum decision yields
no intent, no intent, start, auto-quorum-loss stop, start, auto-quorum-loss
stop — and the run (with a chunk captured in each session) writes exactly
two files. -/
theorem quorum_scenario_intents :
    quorumScenario.1 = [none, none, some Intent.start, some Intent.stopAuto,
                        some Intent.start, some Intent.stopAuto] ∧
    (writes quorumScenario.2).length = 2 := by
  decide

/-- C10: `cleanup_recording` is total and idempotent: on the already-clean
reset state it releases nothing and returns the same reset state, it always
lands in the reset state, and a second invocation after any cleanup performs
no release actions and does not move the state. -/
theorem cleanup_idempotent :
    cleanup_recording initState = (initState, []) ∧
    (∀ st : BotState, (cleanup_recording st).1 = initState) ∧
    (∀ st : BotState,
      cleanup_recording (cleanup_recording st).1 = ((cleanup_recording st).1, [])) :=
  ⟨rfl, fun _ => rfl, fun _ => rfl⟩

/-- C3 counterexample: a session started on a quorum and stopped twice
immediately — before any frame is captured — is an active session on which
the pair of stop calls performs zero file writes, not exactly one; the
second call does short-circuit as `NotActive`. -/
theorem stop_twice_zero_writes_cex :
    (start_recording envA (chN 3) initState).1.recording = true ∧
    writes ((stop_recording envA false false
          (start_recording envA (chN 3) initState).1).2.1
        ++ (stop_recording envA false false
          (stop_recording envA false false
            (start_recording envA (chN 3) initState).1).1).2.1) = [] ∧
    (stop_recording envA false false
        (stop_recording envA false false
          (start_recording envA (chN 3) initState).1).1).2.2 = StopRes.notActive := by
  decide

/-- C3 (amended): stop when not active is a no-op that changes no state and
returns `NotActive`; on an active session the second of two immediate stop
calls short-circuits as `NotActive` and the pair performs at most one file
write — exactly one when the buffer is non-empty and the flush succeeds. -/
theorem stop_idempotent_amended (env : Env) (a e a2 e2 : Bool) (st : BotState) :
    (st.recording = false → stop_recording env a e st = (st, [], StopRes.notActive)) ∧
    (st.recording = true →
      stop_recording env a2 e2 (stop_recording env a e st).1
          = ((stop_recording env a e st).1, [], StopRes.notActive) ∧
      (writes ((stop_recording env a e st).2.1
          ++ (stop_recording env a2 e2 (stop_recording env a e st).1).2.1)).length ≤ 1 ∧
      (st.frames ≠ [] → env.flushOk = true →
        writes ((stop_recording env a e st).2.1
            ++ (stop_recording env a2 e2 (stop_recording env a e st).1).2.1)
          = [st.frames.flatten])) := by
  constructor
  · intro h
    exact stop_not_recording h
  · intro h
    have h1 : (stop_recording env a e st).1 = initState := by
      rw [stop_recording_active env a e st h]
    have h2 : stop_recording env a2 e2 (stop_recording env a e st).1
        = ((stop_recording env a e st).1, [], StopRes.notActive) := by
      rw [h1]
      exact stop_not_recording initState_not_recording
    have h3 : writes ((stop_recording env a e st).2.1
        ++ (stop_recording env a2 e2 (stop_recording env a e st).1).2.1)
        = writes (stop_recording env a e st).2.1 := by
      rw [h2]
      dsimp only
      rw [List.append_nil]
    refine ⟨h2, ?_, ?_⟩
    · rw [h3, stop_writes_char env a e st h]
      by_cases hf : st.frames = []
      · simp [hf]
      · by_cases hk : env.flushOk = true <;> simp [hf, hk]
    · intro hf hk
      rw [h3, stop_writes_char env a e st h]
      simp [hf, hk]

theorem stop_idempotent_amended_witness :
    stA.recording = true ∧
    (stop_recording envA false false (stop_recording envA true false stA).1
        = ((stop_recording envA true false stA).1, [], StopRes.notActive) ∧
     (writes ((stop_recording envA true false stA).2.1
        ++ (stop_recording envA false false
             (stop_recording envA true false stA).1).2.1)).length ≤ 1 ∧
     (stA.frames ≠ [] → envA.flushOk = true →
       writes ((stop_recording envA true false stA).2.1
          ++ (stop_recording envA false false
               (stop_recording envA true false stA).1).2.1)
         = [stA.frames.flatten])) :=
  ⟨rfl, (stop_idempotent_amended envA true false false false stA).2 rfl⟩

/-- C6: with a succeeding flush, a stop on an active session writes no file
when the buffer is empty, and exactly one file whose payload is the in-order
concatenation of the buffered frames otherwise; the capture-failure path out
of the record loop (which stops with the error reason) obeys the same law. -/
theorem stop_flush_exact_payload (env : Env) (a e : Bool) (st : BotState)
    (h : st.recording = true) (hk : env.flushOk = true) :
    writes (stop_recording env a e st).2.1
        = (if st.frames = [] then [] else [st.frames.flatten]) ∧
    (∀ frame, writes (record_loop_iter env false frame st).2
        = (if st.frames = [] then [] else [st.frames.flatten])) := by
  constructor
  · rw [stop_writes_char env a e st h]
    by_cases hf : st.frames = [] <;> simp [hf, hk]
  · intro frame
    have hiter : record_loop_iter env false frame st
        = ((stop_recording env false true st).1, (stop_recording env false true st).2.1) := by
      unfold record_loop_iter
      rw [if_pos h, if_neg (by simp)]
    rw [hiter]
    dsimp only
    rw [stop_writes_char env false true st h]
    by_cases hf : st.frames = [] <;> simp [hf, hk]

theorem stop_flush_exact_payload_witness :
    stA.recording = true ∧ envA.flushOk = true ∧
    writes (stop_recording envA false false stA).2.1
      = (if stA.frames = [] then [] else [stA.frames.flatten]) :=
  ⟨rfl, rfl, (stop_flush_exact_payload envA false false stA rfl rfl).1⟩

/-- C7: while a session is active, a manual stop whose requester is not in
the recording channel and a force stop from a non-administrator are each
answered with a denial message only: the state is unchanged and no stop,
cleanup or file write happens. -/
theorem unauthorized_stop_no_change (env : Env) (ctx : Ctx) (st : BotState)
    (h : st.recording = true) :
    (author_in_recording_channel ctx st = false →
      stop env ctx st
        = (st, [Ev.sendCtx "You must be in the recording channel to stop it"])) ∧
    (ctx.isAdmin = false →
      force_stop env ctx st
        = (st, [Ev.sendCtx "Only administrators can force stop recordings"])) := by
  constructor
  · intro ha
    unfold stop
    rw [if_neg (by simp [h]), if_neg (by simp [ha])]
  · intro ha
    unfold force_stop
    rw [if_neg (by simp [h]), if_neg (by simp [ha])]

theorem unauthorized_stop_no_change_witness :
    stA.recording = true ∧
    author_in_recording_channel ⟨some 2, false⟩ stA = false ∧
    Ctx.isAdmin ⟨some 2, false⟩ = false ∧
    stop envA ⟨some 2, false⟩ stA
      = (stA, [Ev.sendCtx "You must be in the recording channel to stop it"]) ∧
    force_stop envA ⟨some 2, false⟩ stA
      = (stA, [Ev.sendCtx "Only administrators can force stop recordings"]) :=
  ⟨rfl, by decide, rfl,
   (unauthorized_stop_no_change envA ⟨some 2, false⟩ stA rfl).1 (by decide),
   (unauthorized_stop_no_change envA ⟨some 2, false⟩ stA rfl).2 rfl⟩

/-- C8 counterexample: stopping immediately after a quorum start — the frame
buffer still empty — emits no channel notification at all, refuting that a
reason-specific notification accompanies every first stop call. -/
theorem stop_empty_no_notification_cex :
    (start_recording envA (chN 3) initState).1.recording = true ∧
    chanMsgs (stop_recording envA true false
        (start_recording envA (chN 3) initState).1).2.1 = [] := by
  decide

/-- C8 (amended): on the first stop call while active the flag flips to
false and every field resets regardless of flush outcome; a file with the
buffered payload is written exactly when the buffer is non-empty and the
flush succeeds; a live capture handle and voice connection are released; the
reason-specific notification is emitted when the buffer is non-empty and the
flush succeeds, and no channel message at all is sent on an empty buffer. -/
theorem stop_first_call_behavior (env : Env) (a e : Bool) (st : BotState)
    (h : st.recording = true) :
    (stop_recording env a e st).1.recording = false ∧
    (stop_recording env a e st).1 = initState ∧
    writes (stop_recording env a e st).2.1
      = (if st.frames = [] then []
         else if env.flushOk = true then [st.frames.flatten] else []) ∧
    (st.stream.isSome = true → Ev.closeStream ∈ (stop_recording env a e st).2.1) ∧
    (st.voice_client.isSome = true → Ev.disconnectVC ∈ (stop_recording env a e st).2.1) ∧
    (∀ c, st.current_recording_channel = some c → st.frames ≠ [] →
      env.flushOk = true →
      Ev.sendChan c (reasonMsg a e) ∈ (stop_recording env a e st).2.1) ∧
    (st.frames = [] → chanMsgs (stop_recording env a e st).2.1 = []) := by
  have hst : (stop_recording env a e st).1 = initState := by
    rw [stop_recording_active env a e st h]
  refine ⟨by rw [hst]; rfl, hst, stop_writes_char env a e st h, ?_, ?_, ?_, ?_⟩
  · intro hs
    rw [stop_recording_active env a e st h]
    dsimp only
    refine List.mem_append_right _ ?_
    simp [cleanup_recording, hs]
  · intro hv
    rw [stop_recording_active env a e st h]
    dsimp only
    refine List.mem_append_right _ ?_
    simp [cleanup_recording, hv]
  · intro c hc hf hk
    exact reason_msg_mem h hc hf hk
  · intro hf
    rw [stop_recording_active env a e st h]
    dsimp only
    rw [if_pos hf, List.nil_append, chanMsgs_cleanup]

theorem stop_first_call_behavior_witness :
    stA.recording = true ∧
    ((stop_recording envA true false stA).1.recording = false ∧
     (stop_recording envA true false stA).1 = initState ∧
     writes (stop_recording envA true false stA).2.1
       = (if stA.frames = [] then []
          else if envA.flushOk = true then [stA.frames.flatten] else []) ∧
     (stA.stream.isSome = true →
       Ev.closeStream ∈ (stop_recording envA true false stA).2.1) ∧
     (stA.voice_client.isSome = true →
       Ev.disconnectVC ∈ (stop_recording envA true false stA).2.1) ∧
     (∀ c, stA.current_recording_channel = some c → stA.frames ≠ [] →
       envA.flushOk = true →
       Ev.sendChan c (reasonMsg true false) ∈ (stop_recording envA true false stA).2.1) ∧
     (stA.frames = [] → chanMsgs (stop_recording envA true false stA).2.1 = [])) :=
  ⟨rfl, stop_first_call_behavior envA true false stA rfl⟩

/-- C9: on shutdown with an active session, `cog_unload` invokes the stop
operation with its default arguments — the Manual reason — and with a
non-empty buffer and a succeeding flush the manual-stop notification reaches
the recording channel. -/
theorem cog_unload_manual_stop (env : Env) (st : BotState)
    (h : st.recording = true) :
    cog_unload env st
        = ((stop_recording env false false st).1, (stop_recording env false false st).2.1) ∧
    reasonMsg false false = manualStopMsg ∧
    (∀ c, st.current_recording_channel = some c → st.frames ≠ [] →
      env.flushOk = true → Ev.sendChan c manualStopMsg ∈ (cog_unload env st).2) := by
  have hu : cog_unload env st
      = ((stop_recording env false false st).1, (stop_recording env false false st).2.1) := by
    unfold cog_unload
    rw [if_pos h]
  refine ⟨hu, rfl, ?_⟩
  intro c hc hf hk
  rw [hu]
  exact reason_msg_mem h hc hf hk

theorem cog_unload_manual_stop_witness :
    stA.recording = true ∧
    (cog_unload envA stA
        = ((stop_recording envA false false stA).1, (stop_recording envA false false stA).2.1) ∧
     reasonMsg false false = manualStopMsg ∧
     (∀ c, stA.current_recording_channel = some c → stA.frames ≠ [] →
       envA.flushOk = true → Ev.sendChan c manualStopMsg ∈ (cog_unload envA stA).2)) :=
  ⟨rfl, cog_unload_manual_stop envA stA rfl⟩

end NouncilBot
